import Mathlib

/-!
Verification of the Memo-bot classification session core.

The Go sources embedded here are `internal/classifier/gpt_classifier.go`
(the chat-completion variant of `ClassifyContent`, `getOrCreateThread`,
`GetStructuredAnalysis`, `fallbackResponse` with `Summary = content`),
`unnamed/part_004` (the assistant-thread variant of `ClassifyContent`,
the same `getOrCreateThread`, `GetStructuredAnalysis`, and the
`fallbackResponse` with a canned apology and `Links = []`), and
`unnamed/part_003` (`SimpleClassifier`).

External effects (the OpenAI client, the thread storage, `json.Unmarshal`,
`time.Sleep`) are modelled by an environment `Env` of response oracles,
one response per invocation index of each operation, together with a
`SysState` that carries the in-memory thread cache, the durable store and
one invocation counter per operation (the counter doubles as a call count
and as the index of the next oracle response).  Go slice indexing that can
panic (`Choices[0]`, `Content[0]`) is modelled by `GoResult`, whose
`panic` constructor records an escaped runtime error.  The unbounded poll
loop is modelled with explicit fuel: a `none` result means the fuel was
exhausted before the loop exited.
-/

namespace MemoBot

/-- The JSON shape `{category, keywords[], summary, attachments_analysis, links[]}`
expected from the remote assistant (struct `GPTResponse` in the source). -/
structure GPTResponse where
  category : String
  keywords : List String
  summary : String
  attachmentsAnalysis : String
  links : List String
deriving Repr, DecidableEq

/-- `openai.MessageText` as used by the source: only the `Value` field is read. -/
structure MessageText where
  value : String
deriving Repr, DecidableEq

/-- One entry of `openai.Message.Content`. -/
structure MessageContentBlock where
  text : MessageText
deriving Repr, DecidableEq

/-- An element of the list returned by `ListMessage`: the source reads
`msg.Role` and `msg.Content[0].Text.Value`. -/
structure ThreadMessage where
  role : String
  content : List MessageContentBlock
deriving Repr, DecidableEq

/-- Outcome of running a piece of Go code: a normal return, or a runtime
panic (out-of-range slice index) escaping the function. -/
inductive GoResult (α : Type) where
  | ok (a : α)
  | panic
deriving Repr, DecidableEq

/-- Oracle responses of the external collaborators.  Each operation is given
its response as a function of its invocation index, so a single `Env`
determines the remote behaviour of a whole execution:
`none` (or `false`) is the error outcome of the corresponding Go call.
`unmarshal` models `json.Unmarshal` into `GPTResponse` (an external
library call): `none` is a parse error. -/
structure Env where
  createThread : Nat → Option String
  createMessage : Nat → Option String
  createRun : Nat → Option String
  retrieveRun : Nat → Option String
  listMessage : Nat → Option (List ThreadMessage)
  deleteThread : Nat → Bool
  chatCompletion : Nat → Option (List String)
  unmarshal : String → Option GPTResponse
  retrieveThread : Nat → Bool
  storGetOk : Nat → Bool
  storSaveOk : Nat → Bool
  storDeleteOk : Nat → Bool
  storTouchOk : Nat → Bool

/-- Mutable state of one `GPTClassifier` plus the durable store, together
with the invocation counters of every external operation and the total
milliseconds slept by poll loops.  `cache` is the in-memory map
`threads : map[int64]string`; `store` is the thread storage keyed by
user id, where the empty string means absent (`GetThread` returns `""`
when no row exists). -/
structure SysState where
  cache : Int → Option String
  store : Int → String
  nCreateThread : Nat
  nCreateMessage : Nat
  nCreateRun : Nat
  nRetrieveRun : Nat
  nListMessage : Nat
  nDeleteThread : Nat
  nChat : Nat
  nRetrieveThread : Nat
  nStorGet : Nat
  nStorSave : Nat
  nStorDelete : Nat
  nStorTouch : Nat
  sleptMs : Nat

def tickCreateThread (s : SysState) : SysState := { s with nCreateThread := s.nCreateThread + 1 }

def tickCreateMessage (s : SysState) : SysState := { s with nCreateMessage := s.nCreateMessage + 1 }

def tickCreateRun (s : SysState) : SysState := { s with nCreateRun := s.nCreateRun + 1 }

def tickRetrieveRun (s : SysState) : SysState := { s with nRetrieveRun := s.nRetrieveRun + 1 }

def tickListMessage (s : SysState) : SysState := { s with nListMessage := s.nListMessage + 1 }

def tickDeleteThread (s : SysState) : SysState := { s with nDeleteThread := s.nDeleteThread + 1 }

def tickChat (s : SysState) : SysState := { s with nChat := s.nChat + 1 }

def tickRetrieveThread (s : SysState) : SysState := { s with nRetrieveThread := s.nRetrieveThread + 1 }

def tickStorGet (s : SysState) : SysState := { s with nStorGet := s.nStorGet + 1 }

def tickStorSave (s : SysState) : SysState := { s with nStorSave := s.nStorSave + 1 }

def tickStorDelete (s : SysState) : SysState := { s with nStorDelete := s.nStorDelete + 1 }

def tickStorTouch (s : SysState) : SysState := { s with nStorTouch := s.nStorTouch + 1 }

/-- `time.Sleep(500 * time.Millisecond)` in the poll loop. -/
def pollIntervalMs : Nat := 500

def sleepPoll (s : SysState) : SysState := { s with sleptMs := s.sleptMs + pollIntervalMs }

/-- The state with an empty cache, an empty store and all counters zero. -/
def initState : SysState :=
  { cache := fun _ => none
    store := fun _ => ""
    nCreateThread := 0, nCreateMessage := 0, nCreateRun := 0, nRetrieveRun := 0
    nListMessage := 0, nDeleteThread := 0, nChat := 0, nRetrieveThread := 0
    nStorGet := 0, nStorSave := 0, nStorDelete := 0, nStorTouch := 0, sleptMs := 0 }

/-- Go `strings.ToLower`, as a kernel-computable map over the character
data (ASCII case mapping, which coincides with Go on the ASCII keywords
and tags at issue). -/
def strToLower (s : String) : String := String.mk (s.data.map Char.toLower)

/-- Go `strings.TrimSpace`, as a kernel-computable trim of leading and
trailing whitespace. -/
def strTrim (s : String) : String :=
  String.mk (((s.data.dropWhile Char.isWhitespace).reverse.dropWhile Char.isWhitespace).reverse)

/-- Worker for `fieldsOf`: peel maximal runs of non-whitespace characters,
`acc` holding the reversed current run. -/
def fieldsAux : List Char → List Char → List String
  | [], acc => if acc = [] then [] else [String.mk acc.reverse]
  | c :: cs, acc =>
    if c.isWhitespace then
      if acc = [] then fieldsAux cs [] else String.mk acc.reverse :: fieldsAux cs []
    else fieldsAux cs (c :: acc)

/-- Go `strings.Fields`: the whitespace-separated tokens, no empties. -/
def fieldsOf (content : String) : List String := fieldsAux content.data []

/-- Go `strings.HasPrefix(word, "#")`: the first character is the marker. -/
def beginsWithHash (w : String) : Bool :=
  match w.data with
  | [] => false
  | c :: _ => c = '#'

/-- How the poll loop of `GetStructuredAnalysis` exits: run `completed`, a
terminal failure status (`failed`, `expired`, `cancelled`), or an error
from `RetrieveRun`. -/
inductive PollExit where
  | completed
  | terminalFailure (st : String)
  | retrieveError
deriving Repr, DecidableEq

/-- The statuses on which the loop body returns the fallback. -/
def isFailStatus (st : String) : Prop :=
  st = "failed" ∨ st = "expired" ∨ st = "cancelled"

instance (st : String) : Decidable (isFailStatus st) := by
  unfold isFailStatus; infer_instance

/-- A status on which the loop keeps polling: neither `completed` nor a
terminal failure. -/
def keepsPolling (st : String) : Prop :=
  ¬ st = "completed" ∧ ¬ isFailStatus st

instance (st : String) : Decidable (keepsPolling st) := by
  unfold keepsPolling; infer_instance

/-- The poll loop of `GetStructuredAnalysis` (gpt_classifier.go lines
220 to 237): re-fetch the run with `RetrieveRun`; an error or a terminal
failure status exits to the fallback, `completed` exits to message
retrieval, anything else sleeps 500 ms and polls again.  The source loop
is unbounded; `fuel` bounds the number of polls of this embedding, and a
`none` result means the source loop would still be running. -/
def pollRun (env : Env) : Nat → SysState → Option (PollExit × SysState)
  | 0, _ => none
  | fuel + 1, s =>
    match env.retrieveRun s.nRetrieveRun with
    | none => some (.retrieveError, tickRetrieveRun s)
    | some st =>
      if st = "completed" then some (.completed, tickRetrieveRun s)
      else if isFailStatus st then some (.terminalFailure st, tickRetrieveRun s)
      else pollRun env fuel (sleepPoll (tickRetrieveRun s))

/-- How one poll response makes the loop exit: `RetrieveRun` errors exit
to the fallback, `completed` exits forward, terminal failures exit to the
fallback, and any other status keeps the loop polling (`none`). -/
def pollExitOf : Option String → Option PollExit
  | none => some PollExit.retrieveError
  | some st =>
    if st = "completed" then some PollExit.completed
    else if isFailStatus st then some (PollExit.terminalFailure st)
    else none

/-- `fallbackResponse` of `unnamed/part_004` (lines 304 to 311): canned
apology, explicit empty links. -/
def fallbackResponse (_content : String) : GPTResponse :=
  { category := "general"
    keywords := ["unclassified"]
    summary := "I received your message but I\x27m having trouble analyzing it right now."
    attachmentsAnalysis := ""
    links := [] }

/-- `fallbackResponse` of `internal/classifier/gpt_classifier.go` (lines
278 to 284): the summary echoes the original content; the `Links` field is
left at its zero value (nil, i.e. the empty sequence). -/
def fallbackResponseV0 (content : String) : GPTResponse :=
  { category := "general"
    keywords := ["unclassified"]
    summary := content
    attachmentsAnalysis := ""
    links := [] }

/-- `GetStructuredAnalysis` (both source variants share this control flow;
they differ only in logging and in which `fallbackResponse` they return,
so the fallback is a parameter `fb` instantiated below).  Steps:
CreateThread, CreateMessage, CreateRun, the poll loop, ListMessage, scan
for the first assistant message reading `msg.Content[0].Text.Value`
(a panic when the content list is empty), the empty-reply check, parse
with `json.Unmarshal`, best-effort DeleteThread, return the parsed value.
Every failing step returns `fb content`. -/
def GetStructuredAnalysisGen (fb : String → GPTResponse) (env : Env) (content : String)
    (fuel : Nat) (s : SysState) : Option (GoResult GPTResponse × SysState) :=
  match env.createThread s.nCreateThread with
  | none => some (.ok (fb content), tickCreateThread s)
  | some _tid =>
    let s1 := tickCreateThread s
    match env.createMessage s1.nCreateMessage with
    | none => some (.ok (fb content), tickCreateMessage s1)
    | some _mid =>
      let s2 := tickCreateMessage s1
      match env.createRun s2.nCreateRun with
      | none => some (.ok (fb content), tickCreateRun s2)
      | some _rid =>
        let s3 := tickCreateRun s2
        match pollRun env fuel s3 with
        | none => none
        | some (PollExit.retrieveError, s4) => some (.ok (fb content), s4)
        | some (PollExit.terminalFailure _, s4) => some (.ok (fb content), s4)
        | some (PollExit.completed, s4) =>
          match env.listMessage s4.nListMessage with
          | none => some (.ok (fb content), tickListMessage s4)
          | some msgs =>
            let s5 := tickListMessage s4
            match msgs.find? (fun m => m.role == "assistant") with
            | none => some (.ok (fb content), s5)
            | some msg =>
              match msg.content.head? with
              | none => some (.panic, s5)
              | some block =>
                let lastAssistantMessage := block.text.value
                if lastAssistantMessage = "" then some (.ok (fb content), s5)
                else
                  match env.unmarshal lastAssistantMessage with
                  | none => some (.ok (fb content), s5)
                  | some gptResponse => some (.ok gptResponse, tickDeleteThread s5)

/-- The `unnamed/part_004` variant (canned-apology fallback). -/
def GetStructuredAnalysis (env : Env) (content : String) (fuel : Nat) (s : SysState) :
    Option (GoResult GPTResponse × SysState) :=
  GetStructuredAnalysisGen fallbackResponse env content fuel s

/-- The `internal/classifier/gpt_classifier.go` variant (content-echo fallback). -/
def GetStructuredAnalysisV0 (env : Env) (content : String) (fuel : Nat) (s : SysState) :
    Option (GoResult GPTResponse × SysState) :=
  GetStructuredAnalysisGen fallbackResponseV0 env content fuel s

/-- Tag assembly shared by both `ClassifyContent` variants (part_004 lines
56 to 66, gpt_classifier.go lines 89 to 97): the lower-cased category
followed by the keywords, truncated to the first `maxTags` entries when
over budget. -/
def tagsFromAnalysis (analysis : GPTResponse) (maxTags : Nat) : List String :=
  let tags := strToLower analysis.category :: analysis.keywords
  if tags.length > maxTags then tags.take maxTags else tags

/-- `ClassifyContent` of `unnamed/part_004` (lines 52 to 67): delegate to
`GetStructuredAnalysis`, then assemble tags. -/
def ClassifyContent (env : Env) (content : String) (maxTags : Nat) (fuel : Nat)
    (s : SysState) : Option (GoResult (List String) × SysState) :=
  match GetStructuredAnalysis env content fuel s with
  | none => none
  | some (.panic, s1) => some (.panic, s1)
  | some (.ok analysis, s1) => some (.ok (tagsFromAnalysis analysis maxTags), s1)

/-- `strings.Contains haystack needle`: the needle occurs contiguously in
the haystack (all table keywords are ASCII, so byte- and character-level
containment coincide). -/
def containsSub (haystack needle : String) : Bool :=
  decide (needle.toList <:+: haystack.toList)

/-- The fixed category table of `SimpleClassifier.ClassifyContent`
(`unnamed/part_003` lines 69 to 75), in source order.  The source stores
it in a Go map and iterates it in unspecified order; only the resulting
tag set is deterministic, which is what the claims are about. -/
def categoryKeywords : List (String × List String) :=
  [("work", ["project", "meeting", "deadline", "task", "report"]),
   ("personal", ["family", "friend", "home", "birthday", "holiday"]),
   ("shopping", ["buy", "purchase", "store", "shop", "price"]),
   ("education", ["study", "learn", "course", "book", "homework"]),
   ("travel", ["trip", "flight", "hotel", "vacation", "booking"])]

/-- Hashtag extraction of `SimpleClassifier.ClassifyContent` (lines 59 to
66): for each whitespace token starting with the marker, strip one marker,
lower-case, and keep it when nonempty. -/
def hashtagTags (content : String) : List String :=
  (fieldsOf content).filterMap (fun word =>
    if beginsWithHash word then
      let tag := strToLower (word.drop 1)
      if tag = "" then none else some tag
    else none)

/-- Category extraction (lines 77 to 85): a category is added when any of
its keywords is a substring of the lower-cased content (break on the first
hit). -/
def categoryTags (content : String) : List String :=
  categoryKeywords.filterMap (fun ck =>
    if ck.2.any (fun kw => containsSub (strToLower content) kw) then some ck.1 else none)

/-- The deduplicated tag set built by `SimpleClassifier.ClassifyContent`
before truncation, as a list in a canonical order (the source accumulates
the same set in a Go map whose iteration order is unspecified). -/
def simpleTagList (content : String) : List String :=
  (hashtagTags content ++ categoryTags content).dedup

/-- `SimpleClassifier` (`unnamed/part_003` lines 41 to 44).  The
`minConfidence` field is stored by the constructor and never read by
classification. -/
structure SimpleClassifier where
  minConfidence : Float
  maxTags : Nat

/-- `NewSimpleClassifier` (lines 46 to 51). -/
def NewSimpleClassifier (minConfidence : Float) (maxTags : Nat) : SimpleClassifier :=
  { minConfidence := minConfidence, maxTags := maxTags }

/-- `SimpleClassifier.ClassifyContent` (lines 54 to 99): hashtag set plus
matched categories, truncated to the first `maxTags` entries when over
budget. -/
def SimpleClassifier.classifyContent (c : SimpleClassifier) (content : String) : List String :=
  let result := simpleTagList content
  if result.length > c.maxTags then result.take c.maxTags else result

/-- `GPTClassifier.fallbackClassification` (gpt_classifier.go lines 103 to
106): a fresh `SimpleClassifier` with confidence 0.7 and the configured
`maxTags`. -/
def fallbackClassification (content : String) (maxTags : Nat) : List String :=
  (NewSimpleClassifier 0.7 maxTags).classifyContent content

/-- `ClassifyContent` of `internal/classifier/gpt_classifier.go` (lines 52
to 100): one chat completion; on error fall back to the simple classifier,
otherwise read `resp.Choices[0].Message.Content` (a panic when the choice
list is empty), trim it, parse it, and assemble tags; a parse error also
falls back to the simple classifier. -/
def ClassifyContentChat (env : Env) (content : String) (maxTags : Nat) (s : SysState) :
    GoResult (List String) × SysState :=
  match env.chatCompletion s.nChat with
  | none => (.ok (fallbackClassification content maxTags), tickChat s)
  | some choices =>
    let s1 := tickChat s
    match choices.head? with
    | none => (.panic, s1)
    | some firstChoice =>
      let response := strTrim firstChoice
      match env.unmarshal response with
      | none => (.ok (fallbackClassification content maxTags), s1)
      | some gptResponse => (.ok (tagsFromAnalysis gptResponse maxTags), s1)

/-- The tail of `getOrCreateThread` (gpt_classifier.go lines 169 to 187):
create a new remote thread; on success write it to the cache and
best-effort to the store; on failure return the error. -/
def createNewThread (env : Env) (userID : Int) (s : SysState) : Option String × SysState :=
  match env.createThread s.nCreateThread with
  | none => (none, tickCreateThread s)
  | some tid =>
    let s1 := tickCreateThread s
    let s2 := { s1 with cache := fun u => if u = userID then some tid else s1.cache u }
    let saveOk := env.storSaveOk s2.nStorSave
    let s3 := tickStorSave s2
    let s4 := if saveOk then { s3 with store := fun u => if u = userID then tid else s3.store u } else s3
    (some tid, s4)

/-- `getOrCreateThread` (gpt_classifier.go lines 107 to 188, identical in
`unnamed/part_004` lines 74 to 155).  A cached entry is validated with
`RetrieveThread`; when valid it is returned after a best-effort
`UpdateThreadLastUsed`.  When invalid it is removed from the cache and
best-effort deleted from the store, and control continues below the
`if !exists` storage block, i.e. straight to thread creation: the storage
lookup runs only when no cached entry existed at all.  A stored thread
(nonempty id) is validated the same way, cached and returned when valid,
deleted from the store when not. -/
def getOrCreateThread (env : Env) (userID : Int) (s : SysState) : Option String × SysState :=
  match s.cache userID with
  | some threadID =>
    let valid := env.retrieveThread s.nRetrieveThread
    let s1 := tickRetrieveThread s
    if valid then
      let s2 := tickStorTouch s1
      (some threadID, s2)
    else
      let s2 := { s1 with cache := fun u => if u = userID then none else s1.cache u }
      let delOk := env.storDeleteOk s2.nStorDelete
      let s3 := tickStorDelete s2
      let s4 := if delOk then { s3 with store := fun u => if u = userID then "" else s3.store u } else s3
      createNewThread env userID s4
  | none =>
    let getOk := env.storGetOk s.nStorGet
    let s1 := tickStorGet s
    if getOk then
      let storedThreadID := s1.store userID
      if storedThreadID ≠ "" then
        let valid := env.retrieveThread s1.nRetrieveThread
        let s2 := tickRetrieveThread s1
        if valid then
          let s3 := { s2 with cache := fun u => if u = userID then some storedThreadID else s2.cache u }
          let s4 := tickStorTouch s3
          (some storedThreadID, s4)
        else
          let delOk := env.storDeleteOk s2.nStorDelete
          let s3 := tickStorDelete s2
          let s4 := if delOk then { s3 with store := fun u => if u = userID then "" else s3.store u } else s3
          createNewThread env userID s4
      else createNewThread env userID s1
    else createNewThread env userID s1

/-- Claim-side definition for the refinement claim about the fallback
classifier, following the spec sentence literally: collect the whitespace
tokens beginning with the marker, lower-cased with one marker stripped --
with no further condition, so the bare one-character token contributes the
empty tag.  To be compared with `hashtagTags`, which the source builds. -/
def specHashtagTokens (content : String) : List String :=
  (fieldsOf content).filterMap (fun word =>
    if beginsWithHash word then some (strToLower (word.drop 1)) else none)

/-- Claim-side tag set (before truncation): the literal hashtag tokens of
the spec sentence together with the matched categories. -/
def specClaimTagList (content : String) : List String :=
  (specHashtagTokens content ++ categoryTags content).dedup

/-- A parsed remote reply with five keywords, used by concrete runs. -/
def respFive : GPTResponse :=
  { category := "Work"
    keywords := ["k1", "k2", "k3", "k4", "k5"]
    summary := "a summary"
    attachmentsAnalysis := ""
    links := ["http:example"] }

/-- An environment where every remote and storage operation succeeds at
every invocation: threads are created, the first poll completes the run,
the reply "payload" parses to `respFive`, and every session validates. -/
def envAllOk : Env :=
  { createThread := fun n => some (String.append "tid" (toString n))
    createMessage := fun _ => some "mid"
    createRun := fun _ => some "rid"
    retrieveRun := fun _ => some "completed"
    listMessage := fun _ => some [{ role := "assistant", content := [{ text := { value := "payload" } }] }]
    deleteThread := fun _ => true
    chatCompletion := fun _ => some ["payload"]
    unmarshal := fun t => if t = "payload" then some respFive else none
    retrieveThread := fun _ => true
    storGetOk := fun _ => true
    storSaveOk := fun _ => true
    storDeleteOk := fun _ => true
    storTouchOk := fun _ => true }

/-- A state whose cache already holds a session for user 7. -/
def stCached : SysState :=
  { initState with cache := fun u => if u = 7 then some "cached-thread" else none }

/-- A state where user 7 has a (stale) cached session and a different
stored session. -/
def stStale : SysState :=
  { initState with
    cache := fun u => if u = 7 then some "stale-thread" else none
    store := fun u => if u = 7 then "stored-thread" else "" }

/-- Remote that invalidates every session (`RetrieveThread` always errs). -/
def envInvalid : Env := { envAllOk with retrieveThread := fun _ => false }

/-- Remote whose successful chat completion has an empty choice list. -/
def envChatEmptyChoices : Env := { envAllOk with chatCompletion := fun _ => some [] }

/-- Remote whose completed run yields an assistant message with an empty
content-block list. -/
def envEmptyBlocks : Env :=
  { envAllOk with listMessage := fun _ => some [{ role := "assistant", content := [] }] }

/-- Remote where the poll statuses run queued, in progress, failed. -/
def envRunFails : Env :=
  { envAllOk with retrieveRun := fun n =>
      if n = 0 then some "queued" else if n = 1 then some "in_progress" else some "failed" }

/-- Remote where session creation always fails. -/
def envCreateFail : Env := { envAllOk with createThread := fun _ => none }

/-- The state after one all-successful classification turn from
`initState`: one thread created, one message posted, one run submitted,
one poll, one message listing, one thread deletion, no sleeping, and no
interaction with the session cache or the durable store. -/
def stateAfterRun : SysState :=
  { initState with
    nCreateThread := 1, nCreateMessage := 1, nCreateRun := 1,
    nRetrieveRun := 1, nListMessage := 1, nDeleteThread := 1 }

/-! ## Projection lemmas for the counter updates -/

@[simp] theorem tickCreateThread_cache (s : SysState) : (tickCreateThread s).cache = s.cache := rfl
@[simp] theorem tickCreateThread_store (s : SysState) : (tickCreateThread s).store = s.store := rfl
@[simp] theorem tickCreateThread_nCreateThread (s : SysState) : (tickCreateThread s).nCreateThread = s.nCreateThread + 1 := rfl
@[simp] theorem tickCreateThread_nCreateMessage (s : SysState) : (tickCreateThread s).nCreateMessage = s.nCreateMessage := rfl
@[simp] theorem tickCreateThread_nCreateRun (s : SysState) : (tickCreateThread s).nCreateRun = s.nCreateRun := rfl
@[simp] theorem tickCreateThread_nRetrieveRun (s : SysState) : (tickCreateThread s).nRetrieveRun = s.nRetrieveRun := rfl
@[simp] theorem tickCreateThread_nListMessage (s : SysState) : (tickCreateThread s).nListMessage = s.nListMessage := rfl
@[simp] theorem tickCreateThread_nDeleteThread (s : SysState) : (tickCreateThread s).nDeleteThread = s.nDeleteThread := rfl
@[simp] theorem tickCreateThread_nChat (s : SysState) : (tickCreateThread s).nChat = s.nChat := rfl
@[simp] theorem tickCreateThread_nRetrieveThread (s : SysState) : (tickCreateThread s).nRetrieveThread = s.nRetrieveThread := rfl
@[simp] theorem tickCreateThread_nStorGet (s : SysState) : (tickCreateThread s).nStorGet = s.nStorGet := rfl
@[simp] theorem tickCreateThread_nStorSave (s : SysState) : (tickCreateThread s).nStorSave = s.nStorSave := rfl
@[simp] theorem tickCreateThread_nStorDelete (s : SysState) : (tickCreateThread s).nStorDelete = s.nStorDelete := rfl
@[simp] theorem tickCreateThread_nStorTouch (s : SysState) : (tickCreateThread s).nStorTouch = s.nStorTouch := rfl
@[simp] theorem tickCreateThread_sleptMs (s : SysState) : (tickCreateThread s).sleptMs = s.sleptMs := rfl

@[simp] theorem tickCreateMessage_cache (s : SysState) : (tickCreateMessage s).cache = s.cache := rfl
@[simp] theorem tickCreateMessage_store (s : SysState) : (tickCreateMessage s).store = s.store := rfl
@[simp] theorem tickCreateMessage_nCreateThread (s : SysState) : (tickCreateMessage s).nCreateThread = s.nCreateThread := rfl
@[simp] theorem tickCreateMessage_nCreateMessage (s : SysState) : (tickCreateMessage s).nCreateMessage = s.nCreateMessage + 1 := rfl
@[simp] theorem tickCreateMessage_nCreateRun (s : SysState) : (tickCreateMessage s).nCreateRun = s.nCreateRun := rfl
@[simp] theorem tickCreateMessage_nRetrieveRun (s : SysState) : (tickCreateMessage s).nRetrieveRun = s.nRetrieveRun := rfl
@[simp] theorem tickCreateMessage_nListMessage (s : SysState) : (tickCreateMessage s).nListMessage = s.nListMessage := rfl
@[simp] theorem tickCreateMessage_nDeleteThread (s : SysState) : (tickCreateMessage s).nDeleteThread = s.nDeleteThread := rfl
@[simp] theorem tickCreateMessage_nChat (s : SysState) : (tickCreateMessage s).nChat = s.nChat := rfl
@[simp] theorem tickCreateMessage_nRetrieveThread (s : SysState) : (tickCreateMessage s).nRetrieveThread = s.nRetrieveThread := rfl
@[simp] theorem tickCreateMessage_nStorGet (s : SysState) : (tickCreateMessage s).nStorGet = s.nStorGet := rfl
@[simp] theorem tickCreateMessage_nStorSave (s : SysState) : (tickCreateMessage s).nStorSave = s.nStorSave := rfl
@[simp] theorem tickCreateMessage_nStorDelete (s : SysState) : (tickCreateMessage s).nStorDelete = s.nStorDelete := rfl
@[simp] theorem tickCreateMessage_nStorTouch (s : SysState) : (tickCreateMessage s).nStorTouch = s.nStorTouch := rfl
@[simp] theorem tickCreateMessage_sleptMs (s : SysState) : (tickCreateMessage s).sleptMs = s.sleptMs := rfl

@[simp] theorem tickCreateRun_cache (s : SysState) : (tickCreateRun s).cache = s.cache := rfl
@[simp] theorem tickCreateRun_store (s : SysState) : (tickCreateRun s).store = s.store := rfl
@[simp] theorem tickCreateRun_nCreateThread (s : SysState) : (tickCreateRun s).nCreateThread = s.nCreateThread := rfl
@[simp] theorem tickCreateRun_nCreateMessage (s : SysState) : (tickCreateRun s).nCreateMessage = s.nCreateMessage := rfl
@[simp] theorem tickCreateRun_nCreateRun (s : SysState) : (tickCreateRun s).nCreateRun = s.nCreateRun + 1 := rfl
@[simp] theorem tickCreateRun_nRetrieveRun (s : SysState) : (tickCreateRun s).nRetrieveRun = s.nRetrieveRun := rfl
@[simp] theorem tickCreateRun_nListMessage (s : SysState) : (tickCreateRun s).nListMessage = s.nListMessage := rfl
@[simp] theorem tickCreateRun_nDeleteThread (s : SysState) : (tickCreateRun s).nDeleteThread = s.nDeleteThread := rfl
@[simp] theorem tickCreateRun_nChat (s : SysState) : (tickCreateRun s).nChat = s.nChat := rfl
@[simp] theorem tickCreateRun_nRetrieveThread (s : SysState) : (tickCreateRun s).nRetrieveThread = s.nRetrieveThread := rfl
@[simp] theorem tickCreateRun_nStorGet (s : SysState) : (tickCreateRun s).nStorGet = s.nStorGet := rfl
@[simp] theorem tickCreateRun_nStorSave (s : SysState) : (tickCreateRun s).nStorSave = s.nStorSave := rfl
@[simp] theorem tickCreateRun_nStorDelete (s : SysState) : (tickCreateRun s).nStorDelete = s.nStorDelete := rfl
@[simp] theorem tickCreateRun_nStorTouch (s : SysState) : (tickCreateRun s).nStorTouch = s.nStorTouch := rfl
@[simp] theorem tickCreateRun_sleptMs (s : SysState) : (tickCreateRun s).sleptMs = s.sleptMs := rfl

@[simp] theorem tickRetrieveRun_cache (s : SysState) : (tickRetrieveRun s).cache = s.cache := rfl
@[simp] theorem tickRetrieveRun_store (s : SysState) : (tickRetrieveRun s).store = s.store := rfl
@[simp] theorem tickRetrieveRun_nCreateThread (s : SysState) : (tickRetrieveRun s).nCreateThread = s.nCreateThread := rfl
@[simp] theorem tickRetrieveRun_nCreateMessage (s : SysState) : (tickRetrieveRun s).nCreateMessage = s.nCreateMessage := rfl
@[simp] theorem tickRetrieveRun_nCreateRun (s : SysState) : (tickRetrieveRun s).nCreateRun = s.nCreateRun := rfl
@[simp] theorem tickRetrieveRun_nRetrieveRun (s : SysState) : (tickRetrieveRun s).nRetrieveRun = s.nRetrieveRun + 1 := rfl
@[simp] theorem tickRetrieveRun_nListMessage (s : SysState) : (tickRetrieveRun s).nListMessage = s.nListMessage := rfl
@[simp] theorem tickRetrieveRun_nDeleteThread (s : SysState) : (tickRetrieveRun s).nDeleteThread = s.nDeleteThread := rfl
@[simp] theorem tickRetrieveRun_nChat (s : SysState) : (tickRetrieveRun s).nChat = s.nChat := rfl
@[simp] theorem tickRetrieveRun_nRetrieveThread (s : SysState) : (tickRetrieveRun s).nRetrieveThread = s.nRetrieveThread := rfl
@[simp] theorem tickRetrieveRun_nStorGet (s : SysState) : (tickRetrieveRun s).nStorGet = s.nStorGet := rfl
@[simp] theorem tickRetrieveRun_nStorSave (s : SysState) : (tickRetrieveRun s).nStorSave = s.nStorSave := rfl
@[simp] theorem tickRetrieveRun_nStorDelete (s : SysState) : (tickRetrieveRun s).nStorDelete = s.nStorDelete := rfl
@[simp] theorem tickRetrieveRun_nStorTouch (s : SysState) : (tickRetrieveRun s).nStorTouch = s.nStorTouch := rfl
@[simp] theorem tickRetrieveRun_sleptMs (s : SysState) : (tickRetrieveRun s).sleptMs = s.sleptMs := rfl

@[simp] theorem tickListMessage_cache (s : SysState) : (tickListMessage s).cache = s.cache := rfl
@[simp] theorem tickListMessage_store (s : SysState) : (tickListMessage s).store = s.store := rfl
@[simp] theorem tickListMessage_nCreateThread (s : SysState) : (tickListMessage s).nCreateThread = s.nCreateThread := rfl
@[simp] theorem tickListMessage_nCreateMessage (s : SysState) : (tickListMessage s).nCreateMessage = s.nCreateMessage := rfl
@[simp] theorem tickListMessage_nCreateRun (s : SysState) : (tickListMessage s).nCreateRun = s.nCreateRun := rfl
@[simp] theorem tickListMessage_nRetrieveRun (s : SysState) : (tickListMessage s).nRetrieveRun = s.nRetrieveRun := rfl
@[simp] theorem tickListMessage_nListMessage (s : SysState) : (tickListMessage s).nListMessage = s.nListMessage + 1 := rfl
@[simp] theorem tickListMessage_nDeleteThread (s : SysState) : (tickListMessage s).nDeleteThread = s.nDeleteThread := rfl
@[simp] theorem tickListMessage_nChat (s : SysState) : (tickListMessage s).nChat = s.nChat := rfl
@[simp] theorem tickListMessage_nRetrieveThread (s : SysState) : (tickListMessage s).nRetrieveThread = s.nRetrieveThread := rfl
@[simp] theorem tickListMessage_nStorGet (s : SysState) : (tickListMessage s).nStorGet = s.nStorGet := rfl
@[simp] theorem tickListMessage_nStorSave (s : SysState) : (tickListMessage s).nStorSave = s.nStorSave := rfl
@[simp] theorem tickListMessage_nStorDelete (s : SysState) : (tickListMessage s).nStorDelete = s.nStorDelete := rfl
@[simp] theorem tickListMessage_nStorTouch (s : SysState) : (tickListMessage s).nStorTouch = s.nStorTouch := rfl
@[simp] theorem tickListMessage_sleptMs (s : SysState) : (tickListMessage s).sleptMs = s.sleptMs := rfl

@[simp] theorem tickDeleteThread_cache (s : SysState) : (tickDeleteThread s).cache = s.cache := rfl
@[simp] theorem tickDeleteThread_store (s : SysState) : (tickDeleteThread s).store = s.store := rfl
@[simp] theorem tickDeleteThread_nCreateThread (s : SysState) : (tickDeleteThread s).nCreateThread = s.nCreateThread := rfl
@[simp] theorem tickDeleteThread_nCreateMessage (s : SysState) : (tickDeleteThread s).nCreateMessage = s.nCreateMessage := rfl
@[simp] theorem tickDeleteThread_nCreateRun (s : SysState) : (tickDeleteThread s).nCreateRun = s.nCreateRun := rfl
@[simp] theorem tickDeleteThread_nRetrieveRun (s : SysState) : (tickDeleteThread s).nRetrieveRun = s.nRetrieveRun := rfl
@[simp] theorem tickDeleteThread_nListMessage (s : SysState) : (tickDeleteThread s).nListMessage = s.nListMessage := rfl
@[simp] theorem tickDeleteThread_nDeleteThread (s : SysState) : (tickDeleteThread s).nDeleteThread = s.nDeleteThread + 1 := rfl
@[simp] theorem tickDeleteThread_nChat (s : SysState) : (tickDeleteThread s).nChat = s.nChat := rfl
@[simp] theorem tickDeleteThread_nRetrieveThread (s : SysState) : (tickDeleteThread s).nRetrieveThread = s.nRetrieveThread := rfl
@[simp] theorem tickDeleteThread_nStorGet (s : SysState) : (tickDeleteThread s).nStorGet = s.nStorGet := rfl
@[simp] theorem tickDeleteThread_nStorSave (s : SysState) : (tickDeleteThread s).nStorSave = s.nStorSave := rfl
@[simp] theorem tickDeleteThread_nStorDelete (s : SysState) : (tickDeleteThread s).nStorDelete = s.nStorDelete := rfl
@[simp] theorem tickDeleteThread_nStorTouch (s : SysState) : (tickDeleteThread s).nStorTouch = s.nStorTouch := rfl
@[simp] theorem tickDeleteThread_sleptMs (s : SysState) : (tickDeleteThread s).sleptMs = s.sleptMs := rfl

@[simp] theorem tickChat_cache (s : SysState) : (tickChat s).cache = s.cache := rfl
@[simp] theorem tickChat_store (s : SysState) : (tickChat s).store = s.store := rfl
@[simp] theorem tickChat_nCreateThread (s : SysState) : (tickChat s).nCreateThread = s.nCreateThread := rfl
@[simp] theorem tickChat_nCreateMessage (s : SysState) : (tickChat s).nCreateMessage = s.nCreateMessage := rfl
@[simp] theorem tickChat_nCreateRun (s : SysState) : (tickChat s).nCreateRun = s.nCreateRun := rfl
@[simp] theorem tickChat_nRetrieveRun (s : SysState) : (tickChat s).nRetrieveRun = s.nRetrieveRun := rfl
@[simp] theorem tickChat_nListMessage (s : SysState) : (tickChat s).nListMessage = s.nListMessage := rfl
@[simp] theorem tickChat_nDeleteThread (s : SysState) : (tickChat s).nDeleteThread = s.nDeleteThread := rfl
@[simp] theorem tickChat_nChat (s : SysState) : (tickChat s).nChat = s.nChat + 1 := rfl
@[simp] theorem tickChat_nRetrieveThread (s : SysState) : (tickChat s).nRetrieveThread = s.nRetrieveThread := rfl
@[simp] theorem tickChat_nStorGet (s : SysState) : (tickChat s).nStorGet = s.nStorGet := rfl
@[simp] theorem tickChat_nStorSave (s : SysState) : (tickChat s).nStorSave = s.nStorSave := rfl
@[simp] theorem tickChat_nStorDelete (s : SysState) : (tickChat s).nStorDelete = s.nStorDelete := rfl
@[simp] theorem tickChat_nStorTouch (s : SysState) : (tickChat s).nStorTouch = s.nStorTouch := rfl
@[simp] theorem tickChat_sleptMs (s : SysState) : (tickChat s).sleptMs = s.sleptMs := rfl

@[simp] theorem tickRetrieveThread_cache (s : SysState) : (tickRetrieveThread s).cache = s.cache := rfl
@[simp] theorem tickRetrieveThread_store (s : SysState) : (tickRetrieveThread s).store = s.store := rfl
@[simp] theorem tickRetrieveThread_nCreateThread (s : SysState) : (tickRetrieveThread s).nCreateThread = s.nCreateThread := rfl
@[simp] theorem tickRetrieveThread_nCreateMessage (s : SysState) : (tickRetrieveThread s).nCreateMessage = s.nCreateMessage := rfl
@[simp] theorem tickRetrieveThread_nCreateRun (s : SysState) : (tickRetrieveThread s).nCreateRun = s.nCreateRun := rfl
@[simp] theorem tickRetrieveThread_nRetrieveRun (s : SysState) : (tickRetrieveThread s).nRetrieveRun = s.nRetrieveRun := rfl
@[simp] theorem tickRetrieveThread_nListMessage (s : SysState) : (tickRetrieveThread s).nListMessage = s.nListMessage := rfl
@[simp] theorem tickRetrieveThread_nDeleteThread (s : SysState) : (tickRetrieveThread s).nDeleteThread = s.nDeleteThread := rfl
@[simp] theorem tickRetrieveThread_nChat (s : SysState) : (tickRetrieveThread s).nChat = s.nChat := rfl
@[simp] theorem tickRetrieveThread_nRetrieveThread (s : SysState) : (tickRetrieveThread s).nRetrieveThread = s.nRetrieveThread + 1 := rfl
@[simp] theorem tickRetrieveThread_nStorGet (s : SysState) : (tickRetrieveThread s).nStorGet = s.nStorGet := rfl
@[simp] theorem tickRetrieveThread_nStorSave (s : SysState) : (tickRetrieveThread s).nStorSave = s.nStorSave := rfl
@[simp] theorem tickRetrieveThread_nStorDelete (s : SysState) : (tickRetrieveThread s).nStorDelete = s.nStorDelete := rfl
@[simp] theorem tickRetrieveThread_nStorTouch (s : SysState) : (tickRetrieveThread s).nStorTouch = s.nStorTouch := rfl
@[simp] theorem tickRetrieveThread_sleptMs (s : SysState) : (tickRetrieveThread s).sleptMs = s.sleptMs := rfl

@[simp] theorem tickStorGet_cache (s : SysState) : (tickStorGet s).cache = s.cache := rfl
@[simp] theorem tickStorGet_store (s : SysState) : (tickStorGet s).store = s.store := rfl
@[simp] theorem tickStorGet_nCreateThread (s : SysState) : (tickStorGet s).nCreateThread = s.nCreateThread := rfl
@[simp] theorem tickStorGet_nCreateMessage (s : SysState) : (tickStorGet s).nCreateMessage = s.nCreateMessage := rfl
@[simp] theorem tickStorGet_nCreateRun (s : SysState) : (tickStorGet s).nCreateRun = s.nCreateRun := rfl
@[simp] theorem tickStorGet_nRetrieveRun (s : SysState) : (tickStorGet s).nRetrieveRun = s.nRetrieveRun := rfl
@[simp] theorem tickStorGet_nListMessage (s : SysState) : (tickStorGet s).nListMessage = s.nListMessage := rfl
@[simp] theorem tickStorGet_nDeleteThread (s : SysState) : (tickStorGet s).nDeleteThread = s.nDeleteThread := rfl
@[simp] theorem tickStorGet_nChat (s : SysState) : (tickStorGet s).nChat = s.nChat := rfl
@[simp] theorem tickStorGet_nRetrieveThread (s : SysState) : (tickStorGet s).nRetrieveThread = s.nRetrieveThread := rfl
@[simp] theorem tickStorGet_nStorGet (s : SysState) : (tickStorGet s).nStorGet = s.nStorGet + 1 := rfl
@[simp] theorem tickStorGet_nStorSave (s : SysState) : (tickStorGet s).nStorSave = s.nStorSave := rfl
@[simp] theorem tickStorGet_nStorDelete (s : SysState) : (tickStorGet s).nStorDelete = s.nStorDelete := rfl
@[simp] theorem tickStorGet_nStorTouch (s : SysState) : (tickStorGet s).nStorTouch = s.nStorTouch := rfl
@[simp] theorem tickStorGet_sleptMs (s : SysState) : (tickStorGet s).sleptMs = s.sleptMs := rfl

@[simp] theorem tickStorSave_cache (s : SysState) : (tickStorSave s).cache = s.cache := rfl
@[simp] theorem tickStorSave_store (s : SysState) : (tickStorSave s).store = s.store := rfl
@[simp] theorem tickStorSave_nCreateThread (s : SysState) : (tickStorSave s).nCreateThread = s.nCreateThread := rfl
@[simp] theorem tickStorSave_nCreateMessage (s : SysState) : (tickStorSave s).nCreateMessage = s.nCreateMessage := rfl
@[simp] theorem tickStorSave_nCreateRun (s : SysState) : (tickStorSave s).nCreateRun = s.nCreateRun := rfl
@[simp] theorem tickStorSave_nRetrieveRun (s : SysState) : (tickStorSave s).nRetrieveRun = s.nRetrieveRun := rfl
@[simp] theorem tickStorSave_nListMessage (s : SysState) : (tickStorSave s).nListMessage = s.nListMessage := rfl
@[simp] theorem tickStorSave_nDeleteThread (s : SysState) : (tickStorSave s).nDeleteThread = s.nDeleteThread := rfl
@[simp] theorem tickStorSave_nChat (s : SysState) : (tickStorSave s).nChat = s.nChat := rfl
@[simp] theorem tickStorSave_nRetrieveThread (s : SysState) : (tickStorSave s).nRetrieveThread = s.nRetrieveThread := rfl
@[simp] theorem tickStorSave_nStorGet (s : SysState) : (tickStorSave s).nStorGet = s.nStorGet := rfl
@[simp] theorem tickStorSave_nStorSave (s : SysState) : (tickStorSave s).nStorSave = s.nStorSave + 1 := rfl
@[simp] theorem tickStorSave_nStorDelete (s : SysState) : (tickStorSave s).nStorDelete = s.nStorDelete := rfl
@[simp] theorem tickStorSave_nStorTouch (s : SysState) : (tickStorSave s).nStorTouch = s.nStorTouch := rfl
@[simp] theorem tickStorSave_sleptMs (s : SysState) : (tickStorSave s).sleptMs = s.sleptMs := rfl

@[simp] theorem tickStorDelete_cache (s : SysState) : (tickStorDelete s).cache = s.cache := rfl
@[simp] theorem tickStorDelete_store (s : SysState) : (tickStorDelete s).store = s.store := rfl
@[simp] theorem tickStorDelete_nCreateThread (s : SysState) : (tickStorDelete s).nCreateThread = s.nCreateThread := rfl
@[simp] theorem tickStorDelete_nCreateMessage (s : SysState) : (tickStorDelete s).nCreateMessage = s.nCreateMessage := rfl
@[simp] theorem tickStorDelete_nCreateRun (s : SysState) : (tickStorDelete s).nCreateRun = s.nCreateRun := rfl
@[simp] theorem tickStorDelete_nRetrieveRun (s : SysState) : (tickStorDelete s).nRetrieveRun = s.nRetrieveRun := rfl
@[simp] theorem tickStorDelete_nListMessage (s : SysState) : (tickStorDelete s).nListMessage = s.nListMessage := rfl
@[simp] theorem tickStorDelete_nDeleteThread (s : SysState) : (tickStorDelete s).nDeleteThread = s.nDeleteThread := rfl
@[simp] theorem tickStorDelete_nChat (s : SysState) : (tickStorDelete s).nChat = s.nChat := rfl
@[simp] theorem tickStorDelete_nRetrieveThread (s : SysState) : (tickStorDelete s).nRetrieveThread = s.nRetrieveThread := rfl
@[simp] theorem tickStorDelete_nStorGet (s : SysState) : (tickStorDelete s).nStorGet = s.nStorGet := rfl
@[simp] theorem tickStorDelete_nStorSave (s : SysState) : (tickStorDelete s).nStorSave = s.nStorSave := rfl
@[simp] theorem tickStorDelete_nStorDelete (s : SysState) : (tickStorDelete s).nStorDelete = s.nStorDelete + 1 := rfl
@[simp] theorem tickStorDelete_nStorTouch (s : SysState) : (tickStorDelete s).nStorTouch = s.nStorTouch := rfl
@[simp] theorem tickStorDelete_sleptMs (s : SysState) : (tickStorDelete s).sleptMs = s.sleptMs := rfl

@[simp] theorem tickStorTouch_cache (s : SysState) : (tickStorTouch s).cache = s.cache := rfl
@[simp] theorem tickStorTouch_store (s : SysState) : (tickStorTouch s).store = s.store := rfl
@[simp] theorem tickStorTouch_nCreateThread (s : SysState) : (tickStorTouch s).nCreateThread = s.nCreateThread := rfl
@[simp] theorem tickStorTouch_nCreateMessage (s : SysState) : (tickStorTouch s).nCreateMessage = s.nCreateMessage := rfl
@[simp] theorem tickStorTouch_nCreateRun (s : SysState) : (tickStorTouch s).nCreateRun = s.nCreateRun := rfl
@[simp] theorem tickStorTouch_nRetrieveRun (s : SysState) : (tickStorTouch s).nRetrieveRun = s.nRetrieveRun := rfl
@[simp] theorem tickStorTouch_nListMessage (s : SysState) : (tickStorTouch s).nListMessage = s.nListMessage := rfl
@[simp] theorem tickStorTouch_nDeleteThread (s : SysState) : (tickStorTouch s).nDeleteThread = s.nDeleteThread := rfl
@[simp] theorem tickStorTouch_nChat (s : SysState) : (tickStorTouch s).nChat = s.nChat := rfl
@[simp] theorem tickStorTouch_nRetrieveThread (s : SysState) : (tickStorTouch s).nRetrieveThread = s.nRetrieveThread := rfl
@[simp] theorem tickStorTouch_nStorGet (s : SysState) : (tickStorTouch s).nStorGet = s.nStorGet := rfl
@[simp] theorem tickStorTouch_nStorSave (s : SysState) : (tickStorTouch s).nStorSave = s.nStorSave := rfl
@[simp] theorem tickStorTouch_nStorDelete (s : SysState) : (tickStorTouch s).nStorDelete = s.nStorDelete := rfl
@[simp] theorem tickStorTouch_nStorTouch (s : SysState) : (tickStorTouch s).nStorTouch = s.nStorTouch + 1 := rfl
@[simp] theorem tickStorTouch_sleptMs (s : SysState) : (tickStorTouch s).sleptMs = s.sleptMs := rfl

@[simp] theorem sleepPoll_cache (s : SysState) : (sleepPoll s).cache = s.cache := rfl
@[simp] theorem sleepPoll_store (s : SysState) : (sleepPoll s).store = s.store := rfl
@[simp] theorem sleepPoll_nCreateThread (s : SysState) : (sleepPoll s).nCreateThread = s.nCreateThread := rfl
@[simp] theorem sleepPoll_nCreateMessage (s : SysState) : (sleepPoll s).nCreateMessage = s.nCreateMessage := rfl
@[simp] theorem sleepPoll_nCreateRun (s : SysState) : (sleepPoll s).nCreateRun = s.nCreateRun := rfl
@[simp] theorem sleepPoll_nRetrieveRun (s : SysState) : (sleepPoll s).nRetrieveRun = s.nRetrieveRun := rfl
@[simp] theorem sleepPoll_nListMessage (s : SysState) : (sleepPoll s).nListMessage = s.nListMessage := rfl
@[simp] theorem sleepPoll_nDeleteThread (s : SysState) : (sleepPoll s).nDeleteThread = s.nDeleteThread := rfl
@[simp] theorem sleepPoll_nChat (s : SysState) : (sleepPoll s).nChat = s.nChat := rfl
@[simp] theorem sleepPoll_nRetrieveThread (s : SysState) : (sleepPoll s).nRetrieveThread = s.nRetrieveThread := rfl
@[simp] theorem sleepPoll_nStorGet (s : SysState) : (sleepPoll s).nStorGet = s.nStorGet := rfl
@[simp] theorem sleepPoll_nStorSave (s : SysState) : (sleepPoll s).nStorSave = s.nStorSave := rfl
@[simp] theorem sleepPoll_nStorDelete (s : SysState) : (sleepPoll s).nStorDelete = s.nStorDelete := rfl
@[simp] theorem sleepPoll_nStorTouch (s : SysState) : (sleepPoll s).nStorTouch = s.nStorTouch := rfl
@[simp] theorem sleepPoll_sleptMs (s : SysState) : (sleepPoll s).sleptMs = s.sleptMs + pollIntervalMs := rfl

/-! ## Helper lemmas about the poll loop -/

/-- Exiting the poll loop changes only the poll counter and the slept
time: the caches, stores and all other invocation counters pass through. -/
theorem pollRun_preserves (env : Env) :
    ∀ (fuel : Nat) (s s' : SysState) (e : PollExit), pollRun env fuel s = some (e, s') →
      s'.cache = s.cache ∧ s'.store = s.store ∧ s'.nCreateThread = s.nCreateThread ∧
      s'.nCreateMessage = s.nCreateMessage ∧ s'.nCreateRun = s.nCreateRun ∧
      s'.nListMessage = s.nListMessage ∧ s'.nDeleteThread = s.nDeleteThread ∧
      s'.nRetrieveThread = s.nRetrieveThread ∧ s'.nStorGet = s.nStorGet ∧
      s'.nStorSave = s.nStorSave ∧ s'.nStorDelete = s.nStorDelete := by
  intro fuel
  induction fuel with
  | zero => intro s s' e h; simp [pollRun] at h
  | succ n ih =>
    intro s s' e h
    rw [pollRun] at h
    split at h
    · simp only [Option.some.injEq, Prod.mk.injEq] at h
      rw [← h.2]
      simp [tickRetrieveRun]
    · split at h
      · simp only [Option.some.injEq, Prod.mk.injEq] at h
        rw [← h.2]
        simp [tickRetrieveRun]
      · split at h
        · simp only [Option.some.injEq, Prod.mk.injEq] at h
          rw [← h.2]
          simp [tickRetrieveRun]
        · have := ih (sleepPoll (tickRetrieveRun s)) s' e h
          simpa [sleepPoll, tickRetrieveRun] using this

/-- If the first `k` polls keep the loop polling and the `k`-th response
makes it exit with `e`, then with more than `k` units of fuel the loop
returns `e`, having consumed `k + 1` poll responses and slept 500 ms after
each of the `k` non-final polls; everything else passes through. -/
theorem pollRun_from_statuses (env : Env) :
    ∀ (k fuel : Nat) (s : SysState) (e : PollExit),
      (∀ m, m < k → ∃ st, env.retrieveRun (s.nRetrieveRun + m) = some st ∧ keepsPolling st) →
      pollExitOf (env.retrieveRun (s.nRetrieveRun + k)) = some e →
      k < fuel →
      ∃ s', pollRun env fuel s = some (e, s') ∧
        s'.nRetrieveRun = s.nRetrieveRun + k + 1 ∧
        s'.sleptMs = s.sleptMs + pollIntervalMs * k ∧
        s'.cache = s.cache ∧ s'.store = s.store ∧ s'.nCreateThread = s.nCreateThread ∧
        s'.nCreateMessage = s.nCreateMessage ∧ s'.nCreateRun = s.nCreateRun ∧
        s'.nListMessage = s.nListMessage ∧ s'.nDeleteThread = s.nDeleteThread := by
  intro k
  induction k with
  | zero =>
    intro fuel s e _hpre hexit hlt
    obtain ⟨f, rfl⟩ : ∃ f, fuel = f + 1 := ⟨fuel - 1, by omega⟩
    simp only [Nat.add_zero] at hexit
    refine ⟨tickRetrieveRun s, ?_, by simp [tickRetrieveRun], by simp [tickRetrieveRun],
      rfl, rfl, rfl, rfl, rfl, rfl, rfl⟩
    cases hr : env.retrieveRun s.nRetrieveRun with
    | none =>
      rw [hr] at hexit
      simp only [pollExitOf, Option.some.injEq] at hexit
      simp [pollRun, hr, ← hexit]
    | some st =>
      rw [hr] at hexit
      simp only [pollExitOf] at hexit
      by_cases hc : st = "completed"
      · rw [if_pos hc] at hexit
        simp only [Option.some.injEq] at hexit
        simp [pollRun, hr, hc, ← hexit]
      · rw [if_neg hc] at hexit
        by_cases hf : isFailStatus st
        · rw [if_pos hf] at hexit
          simp only [Option.some.injEq] at hexit
          simp [pollRun, hr, hc, hf, ← hexit]
        · rw [if_neg hf] at hexit
          exact absurd hexit (by simp)
  | succ k ih =>
    intro fuel s e hpre hexit hlt
    obtain ⟨f, rfl⟩ : ∃ f, fuel = f + 1 := ⟨fuel - 1, by omega⟩
    obtain ⟨st0, hst0, hkp⟩ := hpre 0 (by omega)
    simp only [Nat.add_zero] at hst0
    have h1 : (sleepPoll (tickRetrieveRun s)).nRetrieveRun = s.nRetrieveRun + 1 := rfl
    have hpre2 : ∀ m, m < k →
        ∃ st, env.retrieveRun ((sleepPoll (tickRetrieveRun s)).nRetrieveRun + m) = some st ∧
          keepsPolling st := by
      intro m hm
      have h := hpre (m + 1) (by omega)
      have heq : s.nRetrieveRun + (m + 1) = (sleepPoll (tickRetrieveRun s)).nRetrieveRun + m := by
        rw [h1]; omega
      rwa [heq] at h
    have hexit2 : pollExitOf (env.retrieveRun ((sleepPoll (tickRetrieveRun s)).nRetrieveRun + k)) = some e := by
      have heq : (sleepPoll (tickRetrieveRun s)).nRetrieveRun + k = s.nRetrieveRun + (k + 1) := by
        rw [h1]; omega
      rwa [heq]
    obtain ⟨s', hval, hn, hslept, hca, hsto, hct, hcm, hcr, hlm, hdt⟩ :=
      ih f (sleepPoll (tickRetrieveRun s)) e hpre2 hexit2 (by omega)
    refine ⟨s', ?_, ?_, ?_, hca, hsto, hct, hcm, hcr, hlm, hdt⟩
    · simp only [pollRun, hst0]
      rw [if_neg hkp.1, if_neg hkp.2]
      exact hval
    · rw [hn, h1]; omega
    · rw [hslept]
      have h2 : (sleepPoll (tickRetrieveRun s)).sleptMs = s.sleptMs + pollIntervalMs := rfl
      rw [h2]; ring
/-- A status stream that never produces `completed`, a terminal failure or
a retrieval error makes the poll loop run forever: no amount of fuel makes
it return. -/
theorem pollRun_none_of_keepsPolling (env : Env) :
    ∀ (fuel : Nat) (s : SysState),
      (∀ n, s.nRetrieveRun ≤ n → ∃ st, env.retrieveRun n = some st ∧ keepsPolling st) →
      pollRun env fuel s = none := by
  intro fuel
  induction fuel with
  | zero => intro s _; simp [pollRun]
  | succ n ih =>
    intro s hp
    obtain ⟨st, hst, hkp⟩ := hp s.nRetrieveRun (le_refl _)
    simp only [pollRun, hst]
    rw [if_neg hkp.1, if_neg hkp.2]
    refine ih (sleepPoll (tickRetrieveRun s)) (fun n hn => hp n ?_)
    have h1 : s.nRetrieveRun + 1 ≤ n := hn
    omega

/-- Any returning classification turn makes exactly one `CreateThread`
invocation and never reads or writes the session cache or the durable
store: `getOrCreateThread` is not on its control path. -/
theorem gen_state (fb : String → GPTResponse) (env : Env) (content : String) :
    ∀ (fuel : Nat) (s : SysState) (r : GoResult GPTResponse) (s' : SysState),
      GetStructuredAnalysisGen fb env content fuel s = some (r, s') →
      s'.nCreateThread = s.nCreateThread + 1 ∧ s'.cache = s.cache ∧ s'.store = s.store ∧
      s'.nRetrieveThread = s.nRetrieveThread ∧ s'.nStorGet = s.nStorGet ∧
      s'.nStorSave = s.nStorSave ∧ s'.nStorDelete = s.nStorDelete := by
  intro fuel s r s' h
  unfold GetStructuredAnalysisGen at h
  simp only [] at h
  split at h
  · simp only [Option.some.injEq, Prod.mk.injEq] at h
    rw [← h.2]; exact ⟨rfl, rfl, rfl, rfl, rfl, rfl, rfl⟩
  · split at h
    · simp only [Option.some.injEq, Prod.mk.injEq] at h
      rw [← h.2]; exact ⟨rfl, rfl, rfl, rfl, rfl, rfl, rfl⟩
    · split at h
      · simp only [Option.some.injEq, Prod.mk.injEq] at h
        rw [← h.2]; exact ⟨rfl, rfl, rfl, rfl, rfl, rfl, rfl⟩
      · split at h
        · exact absurd h (by simp)
        next s4 heq =>
          obtain ⟨hca, hsto, hct, _, _, _, _, hrt, hsg, hss, hsd⟩ :=
            pollRun_preserves env fuel _ s4 _ heq
          simp only [Option.some.injEq, Prod.mk.injEq] at h
          rw [← h.2]
          exact ⟨hct, hca, hsto, hrt, hsg, hss, hsd⟩
        next st s4 heq =>
          obtain ⟨hca, hsto, hct, _, _, _, _, hrt, hsg, hss, hsd⟩ :=
            pollRun_preserves env fuel _ s4 _ heq
          simp only [Option.some.injEq, Prod.mk.injEq] at h
          rw [← h.2]
          exact ⟨hct, hca, hsto, hrt, hsg, hss, hsd⟩
        next s4 heq =>
          obtain ⟨hca, hsto, hct, _, _, _, _, hrt, hsg, hss, hsd⟩ :=
            pollRun_preserves env fuel _ s4 _ heq
          split at h
          · simp only [Option.some.injEq, Prod.mk.injEq] at h
            rw [← h.2]
            exact ⟨hct, hca, hsto, hrt, hsg, hss, hsd⟩
          · split at h
            · simp only [Option.some.injEq, Prod.mk.injEq] at h
              rw [← h.2]
              exact ⟨hct, hca, hsto, hrt, hsg, hss, hsd⟩
            · split at h
              · simp only [Option.some.injEq, Prod.mk.injEq] at h
                rw [← h.2]
                exact ⟨hct, hca, hsto, hrt, hsg, hss, hsd⟩
              · split at h
                · simp only [Option.some.injEq, Prod.mk.injEq] at h
                  rw [← h.2]
                  exact ⟨hct, hca, hsto, hrt, hsg, hss, hsd⟩
                · split at h
                  · simp only [Option.some.injEq, Prod.mk.injEq] at h
                    rw [← h.2]
                    exact ⟨hct, hca, hsto, hrt, hsg, hss, hsd⟩
                  · simp only [Option.some.injEq, Prod.mk.injEq] at h
                    rw [← h.2]
                    exact ⟨hct, hca, hsto, hrt, hsg, hss, hsd⟩

/-- Claim C1: the classification entry point never propagates a remote-API
error: whenever session creation, message posting, run submission, run
polling, message retrieval or reply parsing fails, it returns the fallback
result, whose category is the literal "general" and whose keywords are
exactly ["unclassified"], with an empty link sequence and a summary that
is either a canned apology (part_004 variant) or the original content
(gpt_classifier.go variant); and every normally returned result is either
that fallback or a reply parsed by `json.Unmarshal`. -/
theorem c1_classify_fallback_on_failure (fb : String → GPTResponse) (env : Env)
    (content : String) (fuel : Nat) (s : SysState) :
    ((fallbackResponse content).category = "general" ∧
     (fallbackResponse content).keywords = ["unclassified"] ∧
     (fallbackResponse content).links = [] ∧
     (fallbackResponseV0 content).category = "general" ∧
     (fallbackResponseV0 content).keywords = ["unclassified"] ∧
     (fallbackResponseV0 content).links = [] ∧
     (fallbackResponseV0 content).summary = content) ∧
    (env.createThread s.nCreateThread = none →
      (GetStructuredAnalysisGen fb env content fuel s).map Prod.fst =
        some (GoResult.ok (fb content))) ∧
    (∀ tid, env.createThread s.nCreateThread = some tid →
      env.createMessage s.nCreateMessage = none →
      (GetStructuredAnalysisGen fb env content fuel s).map Prod.fst =
        some (GoResult.ok (fb content))) ∧
    (∀ tid mid, env.createThread s.nCreateThread = some tid →
      env.createMessage s.nCreateMessage = some mid →
      env.createRun s.nCreateRun = none →
      (GetStructuredAnalysisGen fb env content fuel s).map Prod.fst =
        some (GoResult.ok (fb content))) ∧
    (∀ tid mid rid s4, env.createThread s.nCreateThread = some tid →
      env.createMessage s.nCreateMessage = some mid →
      env.createRun s.nCreateRun = some rid →
      pollRun env fuel (tickCreateRun (tickCreateMessage (tickCreateThread s))) =
        some (PollExit.retrieveError, s4) →
      (GetStructuredAnalysisGen fb env content fuel s).map Prod.fst =
        some (GoResult.ok (fb content))) ∧
    (∀ tid mid rid st s4, env.createThread s.nCreateThread = some tid →
      env.createMessage s.nCreateMessage = some mid →
      env.createRun s.nCreateRun = some rid →
      pollRun env fuel (tickCreateRun (tickCreateMessage (tickCreateThread s))) =
        some (PollExit.terminalFailure st, s4) →
      (GetStructuredAnalysisGen fb env content fuel s).map Prod.fst =
        some (GoResult.ok (fb content))) ∧
    (∀ tid mid rid s4, env.createThread s.nCreateThread = some tid →
      env.createMessage s.nCreateMessage = some mid →
      env.createRun s.nCreateRun = some rid →
      pollRun env fuel (tickCreateRun (tickCreateMessage (tickCreateThread s))) =
        some (PollExit.completed, s4) →
      env.listMessage s4.nListMessage = none →
      (GetStructuredAnalysisGen fb env content fuel s).map Prod.fst =
        some (GoResult.ok (fb content))) ∧
    (∀ tid mid rid s4 msgs, env.createThread s.nCreateThread = some tid →
      env.createMessage s.nCreateMessage = some mid →
      env.createRun s.nCreateRun = some rid →
      pollRun env fuel (tickCreateRun (tickCreateMessage (tickCreateThread s))) =
        some (PollExit.completed, s4) →
      env.listMessage s4.nListMessage = some msgs →
      msgs.find? (fun m => m.role == "assistant") = none →
      (GetStructuredAnalysisGen fb env content fuel s).map Prod.fst =
        some (GoResult.ok (fb content))) ∧
    (∀ tid mid rid s4 msgs msg block, env.createThread s.nCreateThread = some tid →
      env.createMessage s.nCreateMessage = some mid →
      env.createRun s.nCreateRun = some rid →
      pollRun env fuel (tickCreateRun (tickCreateMessage (tickCreateThread s))) =
        some (PollExit.completed, s4) →
      env.listMessage s4.nListMessage = some msgs →
      msgs.find? (fun m => m.role == "assistant") = some msg →
      msg.content.head? = some block →
      (block.text.value = "" ∨ env.unmarshal block.text.value = none) →
      (GetStructuredAnalysisGen fb env content fuel s).map Prod.fst =
        some (GoResult.ok (fb content))) ∧
    (∀ r s', GetStructuredAnalysisGen fb env content fuel s = some (GoResult.ok r, s') →
      r = fb content ∨ ∃ m, env.unmarshal m = some r) := by
  refine ⟨⟨rfl, rfl, rfl, rfl, rfl, rfl, rfl⟩, ?_, ?_, ?_, ?_, ?_, ?_, ?_, ?_, ?_⟩
  · intro hct
    simp [GetStructuredAnalysisGen, hct]
  · intro tid hct hcm
    simp [GetStructuredAnalysisGen, hct, hcm]
  · intro tid mid hct hcm hcr
    simp [GetStructuredAnalysisGen, hct, hcm, hcr]
  · intro tid mid rid s4 hct hcm hcr hpoll
    simp [GetStructuredAnalysisGen, hct, hcm, hcr, hpoll]
  · intro tid mid rid st s4 hct hcm hcr hpoll
    simp [GetStructuredAnalysisGen, hct, hcm, hcr, hpoll]
  · intro tid mid rid s4 hct hcm hcr hpoll hlm
    simp [GetStructuredAnalysisGen, hct, hcm, hcr, hpoll, hlm]
  · intro tid mid rid s4 msgs hct hcm hcr hpoll hlm hfind
    simp [GetStructuredAnalysisGen, hct, hcm, hcr, hpoll, hlm, hfind]
  · intro tid mid rid s4 msgs msg block hct hcm hcr hpoll hlm hfind hhead hbad
    by_cases hv : block.text.value = ""
    · simp [GetStructuredAnalysisGen, hct, hcm, hcr, hpoll, hlm, hfind, hhead, hv]
    · have hum : env.unmarshal block.text.value = none := hbad.resolve_left hv
      simp [GetStructuredAnalysisGen, hct, hcm, hcr, hpoll, hlm, hfind, hhead, hv, hum]
  · intro r s' h
    unfold GetStructuredAnalysisGen at h
    simp only [] at h
    split at h
    · simp only [Option.some.injEq, Prod.mk.injEq, GoResult.ok.injEq] at h
      exact Or.inl h.1.symm
    · split at h
      · simp only [Option.some.injEq, Prod.mk.injEq, GoResult.ok.injEq] at h
        exact Or.inl h.1.symm
      · split at h
        · simp only [Option.some.injEq, Prod.mk.injEq, GoResult.ok.injEq] at h
          exact Or.inl h.1.symm
        · split at h
          · exact absurd h (by simp)
          next s4 heq =>
            simp only [Option.some.injEq, Prod.mk.injEq, GoResult.ok.injEq] at h
            exact Or.inl h.1.symm
          next st s4 heq =>
            simp only [Option.some.injEq, Prod.mk.injEq, GoResult.ok.injEq] at h
            exact Or.inl h.1.symm
          next s4 heq =>
            split at h
            · simp only [Option.some.injEq, Prod.mk.injEq, GoResult.ok.injEq] at h
              exact Or.inl h.1.symm
            · split at h
              · simp only [Option.some.injEq, Prod.mk.injEq, GoResult.ok.injEq] at h
                exact Or.inl h.1.symm
              · split at h
                · exact absurd h (by simp)
                next block hhead =>
                  split at h
                  · simp only [Option.some.injEq, Prod.mk.injEq, GoResult.ok.injEq] at h
                    exact Or.inl h.1.symm
                  · split at h
                    · simp only [Option.some.injEq, Prod.mk.injEq, GoResult.ok.injEq] at h
                      exact Or.inl h.1.symm
                    next resp hum =>
                      simp only [Option.some.injEq, Prod.mk.injEq, GoResult.ok.injEq] at h
                      exact Or.inr ⟨block.text.value, by rw [hum, h.1]⟩

/-- Witness for C1: with session creation failing, the entry point returns
exactly the fallback result. -/
theorem c1_classify_fallback_on_failure_witness :
    (GetStructuredAnalysisGen fallbackResponse envCreateFail "hello" 3 initState).map Prod.fst =
      some (GoResult.ok (fallbackResponse "hello")) :=
  (c1_classify_fallback_on_failure fallbackResponse envCreateFail "hello" 3 initState).2.1 rfl

/-- Claim C2: for any parsed remote reply and `maxTags` at least 1, the
tag sequence returned by `ClassifyContent` is the lower-cased category
followed by the keywords in order, truncated as a whole to the first
`maxTags` entries; with `maxTags = 3` and five keywords it has exactly 3
entries with the category in the first slot. -/
theorem c2_tags_truncation (analysis : GPTResponse) (maxTags : Nat) (hmt : 1 ≤ maxTags) :
    (tagsFromAnalysis analysis maxTags =
      (strToLower analysis.category :: analysis.keywords).take maxTags) ∧
    ((tagsFromAnalysis analysis maxTags).head? = some (strToLower analysis.category)) ∧
    (analysis.keywords.length = 5 → maxTags = 3 → (tagsFromAnalysis analysis maxTags).length = 3) ∧
    (∀ (env : Env) (content : String) (fuel : Nat) (s s' : SysState),
      GetStructuredAnalysis env content fuel s = some (GoResult.ok analysis, s') →
      ClassifyContent env content maxTags fuel s =
        some (GoResult.ok ((strToLower analysis.category :: analysis.keywords).take maxTags), s')) := by
  have htake : tagsFromAnalysis analysis maxTags =
      (strToLower analysis.category :: analysis.keywords).take maxTags := by
    unfold tagsFromAnalysis
    simp only []
    split
    · rfl
    · next hlen => rw [List.take_of_length_le (by omega)]
  refine ⟨htake, ?_, ?_, ?_⟩
  · rw [htake]
    obtain ⟨m, rfl⟩ : ∃ m, maxTags = m + 1 := ⟨maxTags - 1, by omega⟩
    rfl
  · intro h5 h3
    subst h3
    rw [htake]
    simp [List.length_take, h5]
  · intro env content fuel s s' h
    unfold ClassifyContent
    rw [h]
    simp only [htake]

/-- Witness for C2 at a concrete five-keyword reply and `maxTags = 3`. -/
theorem c2_tags_truncation_witness :
    (tagsFromAnalysis respFive 3).length = 3 ∧ (tagsFromAnalysis respFive 3).head? = some "work" := by
  have h := c2_tags_truncation respFive 3 (by norm_num)
  refine ⟨h.2.2.1 rfl rfl, ?_⟩
  rw [h.2.1]
  rfl

/-- Counterexample to claim C3: starting from a cache that holds a valid
session for user 7 (the remote validates every session in `envAllOk`), two
sequential classification calls invoke `CreateThread` twice, not at most
once, and never even consult the cached session (zero `RetrieveThread`
calls). -/
theorem c3_session_reuse_counterexample :
    stCached.cache 7 = some "cached-thread" ∧
    ((GetStructuredAnalysis envAllOk "memo" 4 stCached).bind
        (fun p => GetStructuredAnalysis envAllOk "memo" 4 p.2)).map
      (fun p => p.2.nCreateThread) = some 2 ∧
    ((GetStructuredAnalysis envAllOk "memo" 4 stCached).bind
        (fun p => GetStructuredAnalysis envAllOk "memo" 4 p.2)).map
      (fun p => p.2.nRetrieveThread) = some 0 :=
  ⟨rfl, rfl, rfl⟩

/-- Amended claim C3: the session-reuse logic lives in
`getOrCreateThread`, which does reuse a valid cached session (two
sequential resolutions return the cached id with zero `CreateThread`
calls); but the classification entry points never call it -- every
`GetStructuredAnalysis` call performs exactly one `CreateThread` call
regardless of any cached session, so two sequential classification calls
create two remote sessions. -/
theorem c3_session_reuse_amended (env : Env) (u : Int) (tid : String) (s : SysState)
    (h1 : s.cache u = some tid) (h2 : ∀ n, env.retrieveThread n = true) :
    ((getOrCreateThread env u s).1 = some tid ∧
     (getOrCreateThread env u s).2.nCreateThread = s.nCreateThread ∧
     (getOrCreateThread env u s).2.cache = s.cache ∧
     (getOrCreateThread env u ((getOrCreateThread env u s).2)).1 = some tid ∧
     (getOrCreateThread env u ((getOrCreateThread env u s).2)).2.nCreateThread = s.nCreateThread) ∧
    (∀ (fb : String → GPTResponse) (content : String) (fuel : Nat) (r : GoResult GPTResponse)
        (s' : SysState),
      GetStructuredAnalysisGen fb env content fuel s = some (r, s') →
      s'.nCreateThread = s.nCreateThread + 1) := by
  have main : ∀ (s0 : SysState), s0.cache u = some tid →
      (getOrCreateThread env u s0).1 = some tid ∧
      (getOrCreateThread env u s0).2.nCreateThread = s0.nCreateThread ∧
      (getOrCreateThread env u s0).2.cache = s0.cache := by
    intro s0 h0
    unfold getOrCreateThread
    rw [h0]
    simp [h2 s0.nRetrieveThread]
  obtain ⟨ha, hb, hc⟩ := main s h1
  have h1b : ((getOrCreateThread env u s).2).cache u = some tid := by rw [hc]; exact h1
  obtain ⟨ha2, hb2, _⟩ := main _ h1b
  refine ⟨⟨ha, hb, hc, ha2, ?_⟩, ?_⟩
  · rw [hb2, hb]
  · intro fb content fuel r s' h
    exact (gen_state fb env content fuel s r s' h).1

/-- Witness for the amended C3 at a concrete cached session. -/
theorem c3_session_reuse_amended_witness :
    (getOrCreateThread envAllOk 7 stCached).1 = some "cached-thread" ∧
    (getOrCreateThread envAllOk 7 stCached).2.nCreateThread = 0 := by
  have h := c3_session_reuse_amended envAllOk 7 "cached-thread" stCached rfl (fun _ => rfl)
  exact ⟨h.1.1, h.1.2.1⟩

/-- Counterexample to claim C4: user 7 has a stale cached session and a
different stored session; the remote invalidates the cached entry, yet
resolution never queries the durable store (zero `GetThread` calls) and
goes straight to creating a brand-new session. -/
theorem c4_invalid_cache_counterexample :
    stStale.cache 7 = some "stale-thread" ∧
    stStale.store 7 = "stored-thread" ∧
    envInvalid.retrieveThread 0 = false ∧
    (getOrCreateThread envInvalid 7 stStale).1 = some "tid0" ∧
    (getOrCreateThread envInvalid 7 stStale).2.nStorGet = 0 ∧
    (getOrCreateThread envInvalid 7 stStale).2.nCreateThread = 1 :=
  ⟨rfl, rfl, rfl, rfl, rfl, rfl⟩

/-- Amended claim C4: when the cached entry for a user fails validation it
is removed from the cache and deleted (best effort) from the durable
store, and resolution proceeds directly to creating a brand-new session;
the durable store is never queried on this path -- the stored-session
lookup runs only when no cached entry existed at all. -/
theorem c4_invalid_cache_amended (env : Env) (u : Int) (tid : String) (s : SysState)
    (h1 : s.cache u = some tid) (h2 : env.retrieveThread s.nRetrieveThread = false) :
    ((getOrCreateThread env u s).2.nStorGet = s.nStorGet ∧
     (getOrCreateThread env u s).2.nStorDelete = s.nStorDelete + 1 ∧
     (getOrCreateThread env u s).2.nCreateThread = s.nCreateThread + 1) ∧
    (env.createThread s.nCreateThread = none →
      (getOrCreateThread env u s).1 = none ∧ (getOrCreateThread env u s).2.cache u = none) ∧
    (∀ t, env.createThread s.nCreateThread = some t →
      (getOrCreateThread env u s).1 = some t ∧ (getOrCreateThread env u s).2.cache u = some t) ∧
    (env.storDeleteOk s.nStorDelete = true → env.createThread s.nCreateThread = none →
      (getOrCreateThread env u s).2.store u = "") := by
  refine ⟨?_, ?_, ?_, ?_⟩
  · rcases hct : env.createThread s.nCreateThread with _ | t <;>
      rcases hdel : env.storDeleteOk s.nStorDelete with _ | _ <;>
      rcases hsave : env.storSaveOk s.nStorSave with _ | _ <;>
      simp [getOrCreateThread, createNewThread, h1, h2, hct, hdel, hsave]
  · intro hct
    rcases hdel : env.storDeleteOk s.nStorDelete with _ | _ <;>
      simp [getOrCreateThread, createNewThread, h1, h2, hct, hdel]
  · intro t hct
    rcases hdel : env.storDeleteOk s.nStorDelete with _ | _ <;>
      rcases hsave : env.storSaveOk s.nStorSave with _ | _ <;>
      simp [getOrCreateThread, createNewThread, h1, h2, hct, hdel, hsave]
  · intro hdel hct
    simp [getOrCreateThread, createNewThread, h1, h2, hct, hdel]

/-- Witness for the amended C4 at the concrete stale state. -/
theorem c4_invalid_cache_amended_witness :
    (getOrCreateThread envInvalid 7 stStale).2.nStorGet = 0 ∧
    (getOrCreateThread envInvalid 7 stStale).2.nStorDelete = 1 ∧
    (getOrCreateThread envInvalid 7 stStale).2.nCreateThread = 1 := by
  have h := c4_invalid_cache_amended envInvalid 7 "stale-thread" stStale rfl rfl
  exact ⟨h.1.1, h.1.2.1, h.1.2.2⟩

/-- Claim C5: a run whose observed statuses end in failed, expired or
cancelled resolves the turn to the fallback without resubmitting the run
(exactly one `CreateRun`) and without polling past the terminal status;
and a completed run with no assistant-authored message, or whose assistant
reply does not parse, resolves to the very same fallback -- a missing
reply is a failure, not an empty success. -/
theorem c5_terminal_failure_fallback (fb : String → GPTResponse) (env : Env) (content : String)
    (fuel : Nat) (s : SysState) (tid mid rid : String) (k : Nat)
    (hct : env.createThread s.nCreateThread = some tid)
    (hcm : env.createMessage s.nCreateMessage = some mid)
    (hcr : env.createRun s.nCreateRun = some rid)
    (hpre : ∀ m, m < k → ∃ stm, env.retrieveRun (s.nRetrieveRun + m) = some stm ∧ keepsPolling stm)
    (hfuel : k < fuel) :
    (∀ st, env.retrieveRun (s.nRetrieveRun + k) = some st → isFailStatus st →
      (GetStructuredAnalysisGen fb env content fuel s).map Prod.fst =
        some (GoResult.ok (fb content)) ∧
      (GetStructuredAnalysisGen fb env content fuel s).map (fun p => p.2.nCreateRun) =
        some (s.nCreateRun + 1) ∧
      (GetStructuredAnalysisGen fb env content fuel s).map (fun p => p.2.nRetrieveRun) =
        some (s.nRetrieveRun + k + 1)) ∧
    (env.retrieveRun (s.nRetrieveRun + k) = some "completed" →
      ∀ msgs, env.listMessage s.nListMessage = some msgs →
        msgs.find? (fun m => m.role == "assistant") = none →
        (GetStructuredAnalysisGen fb env content fuel s).map Prod.fst =
          some (GoResult.ok (fb content))) ∧
    (env.retrieveRun (s.nRetrieveRun + k) = some "completed" →
      ∀ msgs msg block, env.listMessage s.nListMessage = some msgs →
        msgs.find? (fun m => m.role == "assistant") = some msg →
        msg.content.head? = some block → block.text.value ≠ "" →
        env.unmarshal block.text.value = none →
        (GetStructuredAnalysisGen fb env content fuel s).map Prod.fst =
          some (GoResult.ok (fb content))) := by
  refine ⟨?_, ?_, ?_⟩
  · intro st hst hfail
    have hne : ¬ st = "completed" := by
      rcases hfail with h | h | h <;> subst h <;> decide
    have hexit : pollExitOf (env.retrieveRun (s.nRetrieveRun + k)) =
        some (PollExit.terminalFailure st) := by
      rw [hst]
      simp [pollExitOf, hne, hfail]
    obtain ⟨s4, hpoll, hn, _, _, _, _, _, hcr4, _, _⟩ :=
      pollRun_from_statuses env k fuel (tickCreateRun (tickCreateMessage (tickCreateThread s)))
        (PollExit.terminalFailure st) hpre hexit hfuel
    refine ⟨?_, ?_, ?_⟩
    · simp [GetStructuredAnalysisGen, hct, hcm, hcr, hpoll]
    · simp [GetStructuredAnalysisGen, hct, hcm, hcr, hpoll]
      simpa using hcr4
    · simp [GetStructuredAnalysisGen, hct, hcm, hcr, hpoll]
      simpa using hn
  · intro hst msgs hlm hfind
    have hexit : pollExitOf (env.retrieveRun (s.nRetrieveRun + k)) = some PollExit.completed := by
      rw [hst]; simp [pollExitOf]
    obtain ⟨s4, hpoll, _, _, _, _, _, _, _, hlm4, _⟩ :=
      pollRun_from_statuses env k fuel (tickCreateRun (tickCreateMessage (tickCreateThread s)))
        PollExit.completed hpre hexit hfuel
    have hlm2 : env.listMessage s4.nListMessage = some msgs := by
      rw [hlm4]; exact hlm
    simp [GetStructuredAnalysisGen, hct, hcm, hcr, hpoll, hlm2, hfind]
  · intro hst msgs msg block hlm hfind hhead hne hum
    have hexit : pollExitOf (env.retrieveRun (s.nRetrieveRun + k)) = some PollExit.completed := by
      rw [hst]; simp [pollExitOf]
    obtain ⟨s4, hpoll, _, _, _, _, _, _, _, hlm4, _⟩ :=
      pollRun_from_statuses env k fuel (tickCreateRun (tickCreateMessage (tickCreateThread s)))
        PollExit.completed hpre hexit hfuel
    have hlm2 : env.listMessage s4.nListMessage = some msgs := by
      rw [hlm4]; exact hlm
    simp [GetStructuredAnalysisGen, hct, hcm, hcr, hpoll, hlm2, hfind, hhead, hne, hum]

/-- Witness for C5: the queued, in-progress, failed status sequence
resolves the turn to the fallback with exactly one run submission. -/
theorem c5_terminal_failure_fallback_witness :
    (GetStructuredAnalysisGen fallbackResponse envRunFails "memo" 9 initState).map Prod.fst =
      some (GoResult.ok (fallbackResponse "memo")) ∧
    (GetStructuredAnalysisGen fallbackResponse envRunFails "memo" 9 initState).map
      (fun p => p.2.nCreateRun) = some 1 := by
  have hpre : ∀ m, m < 2 →
      ∃ stm, envRunFails.retrieveRun (initState.nRetrieveRun + m) = some stm ∧ keepsPolling stm := by
    intro m hm
    interval_cases m
    · exact ⟨"queued", rfl, by decide⟩
    · exact ⟨"in_progress", rfl, by decide⟩
  have h := (c5_terminal_failure_fallback fallbackResponse envRunFails "memo" 9 initState
      "tid0" "mid" "rid" 2 rfl rfl rfl hpre (by omega)).1 "failed" rfl (by decide)
  exact ⟨h.1, h.2.1⟩

/-- Claim C6 failing inputs, evaluated: a successful chat completion whose
choice list is empty makes `ClassifyContent` read `resp.Choices[0]` and
panic; a completed run whose assistant message has an empty content-block
list makes `GetStructuredAnalysis` read `msg.Content[0]` and panic.  Both
are runtime errors escaping the entry points, contradicting the claim that
they always complete normally. -/
theorem c6_panic_on_malformed_success :
    envChatEmptyChoices.chatCompletion 0 = some [] ∧
    (ClassifyContentChat envChatEmptyChoices "note" 5 initState).1 = GoResult.panic ∧
    envEmptyBlocks.listMessage 0 = some [{ role := "assistant", content := [] }] ∧
    (GetStructuredAnalysis envEmptyBlocks "note" 4 initState).map Prod.fst =
      some GoResult.panic :=
  ⟨rfl, rfl, rfl, rfl⟩

/-- Counterexample to claim C7 as literally stated: on the content
consisting of the bare marker token, the claimed tag set contains the
empty tag (the token begins with the marker and strips to the empty
string), but the classifier returns the empty sequence -- it discards
empty tags after stripping. -/
theorem c7_fallback_tags_counterexample :
    (NewSimpleClassifier 0.5 3).classifyContent "#" = [] ∧
    specClaimTagList "#" = [""] ∧
    "" ∈ specClaimTagList "#" ∧
    "" ∉ (NewSimpleClassifier 0.5 3).classifyContent "#" := by
  refine ⟨rfl, rfl, ?_, ?_⟩ <;> decide

/-- Membership in the hashtag tags of the fallback classifier: exactly the
whitespace tokens that begin with the marker and whose lower-cased,
marker-stripped form is nonempty. -/
theorem mem_hashtagTags (content t : String) :
    t ∈ hashtagTags content ↔
      ∃ w, w ∈ fieldsOf content ∧ beginsWithHash w = true ∧
        strToLower (w.drop 1) = t ∧ t ≠ "" := by
  unfold hashtagTags
  rw [List.mem_filterMap]
  constructor
  · rintro ⟨w, hw, hf⟩
    simp only [] at hf
    by_cases h1 : beginsWithHash w
    · rw [if_pos h1] at hf
      by_cases h2 : strToLower (w.drop 1) = ""
      · rw [if_pos h2] at hf
        exact absurd hf (by simp)
      · rw [if_neg h2] at hf
        simp only [Option.some.injEq] at hf
        exact ⟨w, hw, h1, hf, by rw [← hf]; exact h2⟩
    · rw [if_neg h1] at hf
      exact absurd hf (by simp)
  · rintro ⟨w, hw, h1, h2, h3⟩
    refine ⟨w, hw, ?_⟩
    simp only []
    rw [if_pos h1, if_neg (by rw [h2]; exact h3), h2]

/-- Membership in the category tags of the fallback classifier: exactly
the table categories with at least one keyword occurring as a substring of
the lower-cased content. -/
theorem mem_categoryTags (content t : String) :
    t ∈ categoryTags content ↔
      ∃ kws, (t, kws) ∈ categoryKeywords ∧
        ∃ kw, kw ∈ kws ∧ containsSub (strToLower content) kw = true := by
  unfold categoryTags
  rw [List.mem_filterMap]
  constructor
  · rintro ⟨ck, hck, hf⟩
    by_cases h1 : ck.2.any (fun kw => containsSub (strToLower content) kw)
    · rw [if_pos h1] at hf
      simp only [Option.some.injEq] at hf
      subst hf
      obtain ⟨kw, hkw, hc⟩ := List.any_eq_true.mp h1
      exact ⟨ck.2, hck, kw, hkw, hc⟩
    · rw [if_neg h1] at hf
      exact absurd hf (by simp)
  · rintro ⟨kws, hmem, kw, hkw, hc⟩
    refine ⟨(t, kws), hmem, ?_⟩
    rw [if_pos (List.any_eq_true.mpr ⟨kw, hkw, hc⟩)]

/-- Amended claim C7: the fallback classifier returns, truncated to the
first `maxTags` entries of a canonical order, the deduplicated set
consisting of the lower-cased marker-stripped hashtag tokens that are
nonempty after stripping, together with every table category one of whose
keywords occurs in the lower-cased content; empty content yields the empty
sequence and there is no error case. -/
theorem c7_fallback_tags_amended (c : SimpleClassifier) (content : String) :
    (c.classifyContent content).Nodup ∧
    (∀ t, t ∈ c.classifyContent content → t ∈ simpleTagList content) ∧
    ((simpleTagList content).length ≤ c.maxTags →
      c.classifyContent content = simpleTagList content) ∧
    ((c.classifyContent content).length = min (simpleTagList content).length c.maxTags) ∧
    (∀ t, t ∈ simpleTagList content ↔ t ∈ hashtagTags content ∨ t ∈ categoryTags content) ∧
    (∀ t, t ∈ hashtagTags content ↔
      ∃ w, w ∈ fieldsOf content ∧ beginsWithHash w = true ∧
        strToLower (w.drop 1) = t ∧ t ≠ "") ∧
    (∀ t, t ∈ categoryTags content ↔
      ∃ kws, (t, kws) ∈ categoryKeywords ∧
        ∃ kw, kw ∈ kws ∧ containsSub (strToLower content) kw = true) ∧
    (content = "" → c.classifyContent content = []) := by
  refine ⟨?_, ?_, ?_, ?_, ?_, mem_hashtagTags content, mem_categoryTags content, ?_⟩
  · unfold SimpleClassifier.classifyContent
    simp only []
    split
    · exact (List.take_sublist _ _).nodup (List.nodup_dedup _)
    · exact List.nodup_dedup _
  · intro t ht
    unfold SimpleClassifier.classifyContent at ht
    simp only [] at ht
    split at ht
    · exact List.take_subset _ _ ht
    · exact ht
  · intro hle
    unfold SimpleClassifier.classifyContent
    simp only []
    rw [if_neg (by omega)]
  · unfold SimpleClassifier.classifyContent
    simp only []
    split
    · next hgt => rw [List.length_take]; omega
    · next hle => omega
  · intro t
    unfold simpleTagList
    rw [List.mem_dedup, List.mem_append]
  · intro h
    subst h
    have h0 : simpleTagList "" = [] := rfl
    simp [SimpleClassifier.classifyContent, h0]

/-- Witness for the amended C7: empty content yields the empty tag
sequence. -/
theorem c7_fallback_tags_amended_witness :
    (NewSimpleClassifier 0.5 3).classifyContent "" = [] :=
  (c7_fallback_tags_amended (NewSimpleClassifier 0.5 3) "").2.2.2.2.2.2.2 rfl

/-- Claim C8: the poll loop sleeps a fixed 500 ms between polls, imposes
no iteration bound of its own, exits exactly when `completed`, a terminal
failure status or a retrieval error is observed (consuming one status per
poll and sleeping after each non-final poll), and for a status stream that
never reaches such a response it runs forever -- no fuel bound makes it
return. -/
theorem c8_poll_loop (env : Env) (s : SysState) (k fuel : Nat) (e : PollExit) :
    pollIntervalMs = 500 ∧
    ((∀ m, m < k → ∃ st, env.retrieveRun (s.nRetrieveRun + m) = some st ∧ keepsPolling st) →
      pollExitOf (env.retrieveRun (s.nRetrieveRun + k)) = some e → k < fuel →
      ((pollRun env fuel s).map Prod.fst = some e ∧
       (pollRun env fuel s).map (fun p => p.2.nRetrieveRun) = some (s.nRetrieveRun + k + 1) ∧
       (pollRun env fuel s).map (fun p => p.2.sleptMs) =
         some (s.sleptMs + pollIntervalMs * k))) ∧
    ((∀ n, s.nRetrieveRun ≤ n → ∃ st, env.retrieveRun n = some st ∧ keepsPolling st) →
      pollRun env fuel s = none) := by
  refine ⟨rfl, ?_, pollRun_none_of_keepsPolling env fuel s⟩
  intro hpre hexit hlt
  obtain ⟨s', hval, hn, hsl, _⟩ := pollRun_from_statuses env k fuel s e hpre hexit hlt
  rw [hval]
  exact ⟨rfl, by simp [hn], by simp [hsl]⟩

/-- Witness for C8: three polls (queued, in progress, failed), two 500 ms
sleeps, exit on the terminal status. -/
theorem c8_poll_loop_witness :
    (pollRun envRunFails 9 initState).map Prod.fst =
      some (PollExit.terminalFailure "failed") ∧
    (pollRun envRunFails 9 initState).map (fun p => p.2.sleptMs) = some 1000 := by
  have hpre : ∀ m, m < 2 →
      ∃ st, envRunFails.retrieveRun (initState.nRetrieveRun + m) = some st ∧ keepsPolling st := by
    intro m hm
    interval_cases m
    · exact ⟨"queued", rfl, by decide⟩
    · exact ⟨"in_progress", rfl, by decide⟩
  have h := (c8_poll_loop envRunFails initState 2 9 (PollExit.terminalFailure "failed")).2.1
    hpre (by decide) (by omega)
  refine ⟨h.1, ?_⟩
  rw [h.2.2]
  rfl

/-- Counterexample to claim C9: from a fresh user (nothing cached, nothing
stored), two classification calls -- one possible schedule of two
concurrent calls -- invoke `CreateThread` twice, not exactly once. -/
theorem c9_concurrent_create_counterexample :
    initState.cache 5 = none ∧ initState.store 5 = "" ∧
    ((GetStructuredAnalysis envAllOk "note" 4 initState).bind
        (fun p => GetStructuredAnalysis envAllOk "note" 4 p.2)).map
      (fun p => p.2.nCreateThread) = some 2 :=
  ⟨rfl, rfl, rfl⟩

/-- Amended claim C9: every classification call invokes `CreateThread`
exactly once -- so N calls, in any serialization, make N such calls -- and
the call never reads or writes the session cache or the durable store
(they are keyed per user, so they alone never hold two sessions for one
user, but classification does not consult them). -/
theorem c9_concurrent_create_amended (fb : String → GPTResponse) (env : Env) (content : String)
    (fuel : Nat) (s : SysState) (r : GoResult GPTResponse) (s' : SysState)
    (h : GetStructuredAnalysisGen fb env content fuel s = some (r, s')) :
    s'.nCreateThread = s.nCreateThread + 1 ∧ s'.cache = s.cache ∧ s'.store = s.store ∧
    s'.nRetrieveThread = s.nRetrieveThread ∧ s'.nStorGet = s.nStorGet := by
  obtain ⟨h1, h2, h3, h4, h5, _, _⟩ := gen_state fb env content fuel s r s' h
  exact ⟨h1, h2, h3, h4, h5⟩

/-- Witness for the amended C9 at a concrete successful run. -/
theorem c9_concurrent_create_amended_witness :
    stateAfterRun.nCreateThread = initState.nCreateThread + 1 ∧
    stateAfterRun.cache = initState.cache := by
  have h := c9_concurrent_create_amended fallbackResponse envAllOk "note" 4 initState
    (GoResult.ok respFive) stateAfterRun rfl
  exact ⟨h.1, h.2.1⟩

/-- Claim C10: the output of the fallback classifier is independent of the
`minConfidence` parameter -- the field is stored at construction and never
read by classification. -/
theorem c10_minconfidence_independent (c1 c2 : Float) (maxTags : Nat) (content : String) :
    (NewSimpleClassifier c1 maxTags).classifyContent content =
      (NewSimpleClassifier c2 maxTags).classifyContent content := rfl

end MemoBot
